import Mathlib

/-
Verification development for the pdfdancer python client, centred on the
snapshot cache and object-resolution layer of PDFDancer (pdfdancer_v1.py).

The data model (Position, BoundingRect, ObjectRef and friends) lives in
models.py, which is not part of the source tree we were given; those value
types are modelled from the specification and marked as such.  All algorithmic
definitions (cache lookup, invalidation, client-side filtering, rectangle
intersection, JSON snapshot parsing, mutation operations) are translated
directly from pdfdancer_v1.py.

Conventions of the embedding:
  - python floats are modelled as rationals;
  - python None / raised exceptions are modelled with Option / Except;
  - the network is modelled by explicit parameters (fetchDoc, fetchPage,
    serverResult) describing what the server would answer, and every
    operation additionally returns the list of network requests it issued;
  - the mutable cache of the client object is passed as an explicit
    CacheState value.
-/

set_option linter.unusedVariables false

namespace PdfDancer

/-- Modelled from the spec, section 3 (models.py is absent from src):
the closed enumeration of object-type tags. The FORM_X_OBJECT member has
wire value FORM. -/
inductive ObjectType where
  | PAGE
  | PARAGRAPH
  | TEXT_LINE
  | IMAGE
  | PATH
  | FORM_X_OBJECT
  | FORM_FIELD
  | TEXT_FIELD
  | CHECK_BOX
  | RADIO_BUTTON
  deriving DecidableEq, Repr

/-- Modelled from the spec: wire-string lookup for ObjectType, as performed
by the python enum constructor; unknown strings fail. -/
def ObjectType.ofString : String → Option ObjectType
  | "PAGE" => some .PAGE
  | "PARAGRAPH" => some .PARAGRAPH
  | "TEXT_LINE" => some .TEXT_LINE
  | "IMAGE" => some .IMAGE
  | "PATH" => some .PATH
  | "FORM" => some .FORM_X_OBJECT
  | "FORM_FIELD" => some .FORM_FIELD
  | "TEXT_FIELD" => some .TEXT_FIELD
  | "CHECK_BOX" => some .CHECK_BOX
  | "RADIO_BUTTON" => some .RADIO_BUTTON
  | _ => none

/-- Modelled from the spec: BoundingRect with the four numeric fields.
The parser of pdfdancer_v1.py only ever builds a rect when all four are
present, so the fields are not optional here. -/
structure BoundingRect where
  x : ℚ
  y : ℚ
  width : ℚ
  height : ℚ
  deriving DecidableEq, Repr

/-- Modelled from the spec, section 3: a query/placement descriptor with
independently optional fields.  ShapeType and PositionMode values live in
the absent models.py and are unconstrained by the spec, so they are kept
as raw strings. -/
structure Position where
  page_index : Option Int := none
  bounding_rect : Option BoundingRect := none
  text_starts_with : Option String := none
  text_pattern : Option String := none
  name : Option String := none
  shape : Option String := none
  mode : Option String := none
  deriving DecidableEq, Repr

/-- Modelled from the spec: RGBA color; built by the parser only when
red, green and blue are integral. -/
structure Color where
  red : Int
  green : Int
  blue : Int
  alpha : Int
  deriving DecidableEq, Repr

/-- Modelled from the spec: a font recommendation record.  FontType values
live in the absent models.py, so the classification is kept as a string. -/
structure FontRecommendation where
  font_name : String
  font_type : String
  similarity_score : ℚ
  deriving DecidableEq, Repr

/-- Modelled from the spec: the status record of a text object. -/
structure TextStatus where
  modified : Bool
  encodable : Bool
  font_type : String
  font_recommendation : Option FontRecommendation
  deriving DecidableEq, Repr

/-- Discriminates which python ref class an element instance belongs to
(ObjectRef, TextObjectRef or FormFieldRef); used to model isinstance
checks in the client-side filters. -/
inductive RefKind where
  | generic
  | text
  | formField
  deriving DecidableEq, Repr

/-- Modelled from the spec: one element of a page snapshot.  A single
recursive type covers ObjectRef, TextObjectRef (kind text, with text,
font and children fields populated) and FormFieldRef (kind formField,
with name and value populated). -/
inductive Element where
  | mk : RefKind → ObjectType → Option String → Option Position → Option String →
      Option String → Option ℚ → Option (List ℚ) → Option Color → Option TextStatus →
      Option String → Option String → List Element → Element

def Element.kind : Element → RefKind
  | .mk k _ _ _ _ _ _ _ _ _ _ _ _ => k

def Element.type : Element → ObjectType
  | .mk _ t _ _ _ _ _ _ _ _ _ _ _ => t

def Element.internal_id : Element → Option String
  | .mk _ _ i _ _ _ _ _ _ _ _ _ _ => i

def Element.position : Element → Option Position
  | .mk _ _ _ p _ _ _ _ _ _ _ _ _ => p

def Element.text : Element → Option String
  | .mk _ _ _ _ t _ _ _ _ _ _ _ _ => t

def Element.font_name : Element → Option String
  | .mk _ _ _ _ _ f _ _ _ _ _ _ _ => f

def Element.font_size : Element → Option ℚ
  | .mk _ _ _ _ _ _ s _ _ _ _ _ _ => s

def Element.line_spacings : Element → Option (List ℚ)
  | .mk _ _ _ _ _ _ _ l _ _ _ _ _ => l

def Element.color : Element → Option Color
  | .mk _ _ _ _ _ _ _ _ c _ _ _ _ => c

def Element.status : Element → Option TextStatus
  | .mk _ _ _ _ _ _ _ _ _ s _ _ _ => s

def Element.name : Element → Option String
  | .mk _ _ _ _ _ _ _ _ _ _ n _ _ => n

def Element.value : Element → Option String
  | .mk _ _ _ _ _ _ _ _ _ _ _ v _ => v

def Element.children : Element → List Element
  | .mk _ _ _ _ _ _ _ _ _ _ _ _ c => c

/-- Modelled from the spec: page size with width and height in points. -/
structure PageSize where
  width : ℚ
  height : ℚ
  deriving DecidableEq, Repr

/-- Modelled from the spec: PageRef extends ObjectRef for PAGE with an
optional page size and an optional orientation string. -/
structure PageRef where
  internal_id : Option String
  position : Option Position
  type : ObjectType
  page_size : Option PageSize
  orientation : Option String
  deriving Repr

/-- Modelled from the spec: a PageRef plus the ordered elements on the page. -/
structure PageSnapshot where
  page_ref : PageRef
  elements : List Element

/-- Modelled from the spec: page count, font recommendations, page snapshots. -/
structure DocumentSnapshot where
  page_count : Int
  fonts : List FontRecommendation
  pages : List PageSnapshot

/-- Modelled from the spec: the structured command result returned by the
modify endpoints; CommandResult.empty builds an inert result carrying only
the command name and the object id. -/
structure CommandResult where
  command : String
  object_id : Option String
  deriving DecidableEq, Repr

def CommandResult.empty (command : String) (object_id : Option String) : CommandResult :=
  ⟨command, object_id⟩

/-- A ValidationException of the client, carrying its message. -/
structure ValidationError where
  message : String
  deriving DecidableEq, Repr

/-- One network request issued by the client, identified by its endpoint. -/
inductive Request where
  | findPost
  | documentSnapshotGet
  | pageSnapshotGet (page_index : Int)
  | deleteObj
  | deletePage
  | moveObj
  | movePage
  | addObj
  | modifyText
  | modifyObj
  | changeFormField
  deriving DecidableEq, Repr

/-- The page-snapshot map of the client, as an insertion-ordered
association list with unique integer keys (a python dict). -/
def PageMap : Type := List (Int × PageSnapshot)

def pmLookup : PageMap → Int → Option PageSnapshot
  | [], _ => none
  | (k, v) :: rest, i => if k = i then some v else pmLookup rest i

/-- Python dict assignment: replace the value of an existing key in place,
otherwise append the new binding. -/
def pmInsert : PageMap → Int → PageSnapshot → PageMap
  | [], i, p => [(i, p)]
  | (k, v) :: rest, i, p =>
      if k = i then (k, p) :: rest else (k, v) :: pmInsert rest i p

/-- The two snapshot-cache slots of a PDFDancer instance
(the fields document_snapshot and page_snapshots). -/
structure CacheState where
  document_snapshot : Option DocumentSnapshot
  page_snapshots : PageMap

/-- The cache right after construction, and right after invalidation. -/
def emptyCache : CacheState := ⟨none, []⟩

/-- Translation of PDFDancer invalidate_snapshots: clear the document
slot and the whole page-snapshot map. -/
def invalidate_snapshots (st : CacheState) : CacheState := emptyCache

/-- The page-slot population loop inside get_or_fetch_document_snapshot:
for each page of the freshly fetched document snapshot, store it under its
index only when that index is not already cached. -/
def cachePagesFromDoc (m : PageMap) (pages : List PageSnapshot) (i : Int) : PageMap :=
  match pages with
  | [] => m
  | p :: rest =>
      cachePagesFromDoc (if (pmLookup m i).isSome then m else pmInsert m i p) rest (i + 1)

/-- Translation of PDFDancer get_or_fetch_document_snapshot.  The network
is represented by fetchDoc, the document snapshot the server would return;
the triple holds the returned snapshot, the new cache state and the
requests issued. -/
def get_or_fetch_document_snapshot (fetchDoc : DocumentSnapshot) (st : CacheState) :
    DocumentSnapshot × CacheState × List Request :=
  match st.document_snapshot with
  | some d => (d, st, [])
  | none =>
      let d := fetchDoc
      (d, ⟨some d, cachePagesFromDoc st.page_snapshots d.pages 0⟩,
        [Request.documentSnapshotGet])

/-- Translation of PDFDancer get_page_snapshot: the dedicated page-snapshot
endpoint, which validates the index before any request. -/
def get_page_snapshot (fetchPage : Int → PageSnapshot) (page_index : Int) :
    Except ValidationError (PageSnapshot × List Request) :=
  if page_index < 0 then
    .error ⟨"Page index must be >= 0"⟩
  else
    .ok (fetchPage page_index, [Request.pageSnapshotGet page_index])

/-- Translation of PDFDancer get_or_fetch_page_snapshot: cached page slot
first; else extract from a cached document snapshot when the index is in
range; else a dedicated network fetch. -/
def get_or_fetch_page_snapshot (fetchPage : Int → PageSnapshot) (st : CacheState)
    (page_index : Int) : Except ValidationError (PageSnapshot × CacheState × List Request) :=
  match pmLookup st.page_snapshots page_index with
  | some p => .ok (p, st, [])
  | none =>
      let fetchBranch : Except ValidationError (PageSnapshot × CacheState × List Request) :=
        match get_page_snapshot fetchPage page_index with
        | .error e => .error e
        | .ok (p, reqs) =>
            .ok (p, ⟨st.document_snapshot, pmInsert st.page_snapshots page_index p⟩, reqs)
      match st.document_snapshot with
      | some d =>
          if h : 0 ≤ page_index ∧ page_index.toNat < d.pages.length then
            let p := d.pages.get ⟨page_index.toNat, h.2⟩
            .ok (p, ⟨st.document_snapshot, pmInsert st.page_snapshots page_index p⟩, [])
          else
            fetchBranch
      | none => fetchBranch

/-- The default tolerance of 0.01 point (DEFAULT_TOLERANCE). -/
def defaultTolerance : ℚ := 1 / 100

/-- Translation of PDFDancer rects_intersect: expand both rectangle
bounds by the tolerance, then reject exactly when the expanded intervals
are disjoint on one axis. -/
def rects_intersect (rect1 rect2 : BoundingRect) (tolerance : ℚ) : Bool :=
  let r1_left := rect1.x - tolerance
  let r1_right := rect1.x + rect1.width + tolerance
  let r1_top := rect1.y - tolerance
  let r1_bottom := rect1.y + rect1.height + tolerance
  let r2_left := rect2.x - tolerance
  let r2_right := rect2.x + rect2.width + tolerance
  let r2_top := rect2.y - tolerance
  let r2_bottom := rect2.y + rect2.height + tolerance
  if r1_right < r2_left ∨ r2_right < r1_left then false
  else if r1_bottom < r2_top ∨ r2_bottom < r1_top then false
  else true

/-- Python truthiness of an optional string: None and the empty string
are both falsy. -/
def strTruthy : Option String → Bool
  | none => false
  | some s => !(s = "")

/-- Truthiness guard and value of an optional-string predicate field:
returns the string exactly when it is present and non-empty. -/
def strGuard : Option String → Option String
  | none => none
  | some s => if s = "" then none else some s

/-- Translation of PDFDancer filter_snapshot_elements.  The requested
object_type parameter is optional, exactly as at its call sites (a None
request type matches no element).  Regular-expression search is outside
the scope of the embedding, so the unanchored search of the re module is
abstracted by the regexSearch argument (pattern, text, result). -/
def filter_snapshot_elements (regexSearch : String → String → Bool)
    (elements : List Element) (object_type : Option ObjectType)
    (position : Option Position) (tolerance : ℚ) : List Element :=
  let filtered :=
    if object_type = some ObjectType.FORM_FIELD then
      elements.filter fun e =>
        e.type = ObjectType.FORM_FIELD ∨ e.type = ObjectType.TEXT_FIELD ∨
          e.type = ObjectType.CHECK_BOX ∨ e.type = ObjectType.RADIO_BUTTON
    else
      elements.filter fun e => some e.type = object_type
  match position with
  | none => filtered
  | some pos =>
      let result := filtered
      let result :=
        match strGuard pos.text_starts_with with
        | none => result
        | some s =>
            let search_text := s.toLower
            result.filter fun e =>
              e.kind = RefKind.text ∧ strTruthy e.text ∧
                ((e.text.getD "").toLower.startsWith search_text)
      let result :=
        match strGuard pos.text_pattern with
        | none => result
        | some pat =>
            result.filter fun e =>
              e.kind = RefKind.text ∧ strTruthy e.text ∧ regexSearch pat (e.text.getD "")
      let result :=
        match pos.bounding_rect with
        | none => result
        | some rect =>
            result.filter fun e =>
              match e.position with
              | none => false
              | some p =>
                  match p.bounding_rect with
                  | none => false
                  | some br => rects_intersect br rect tolerance
      let result :=
        match strGuard pos.name with
        | none => result
        | some n =>
            result.filter fun e => e.kind = RefKind.formField ∧ e.name = some n
      result

/-- Translation of PDFDancer find.  The network is represented by the
fetchDoc / fetchPage snapshots the server would return and by findResult,
the already-parsed object list the find-by-position endpoint would return.
The result triple carries the answer, the new cache state and the issued
requests. -/
def find (fetchDoc : DocumentSnapshot) (fetchPage : Int → PageSnapshot)
    (findResult : List Element) (regexSearch : String → String → Bool)
    (object_type : Option ObjectType) (position : Option Position) (tolerance : ℚ)
    (st : CacheState) :
    Except ValidationError (List Element × CacheState × List Request) :=
  if decide (object_type = some ObjectType.PATH) &&
      (match position with
       | some p => p.bounding_rect.isSome
       | none => false) then
    .ok (findResult, st, [Request.findPost])
  else
    let docBranch : Except ValidationError (List Element × CacheState × List Request) :=
      let (d, st2, reqs) := get_or_fetch_document_snapshot fetchDoc st
      let all_elements := d.pages.foldl (fun acc ps => acc ++ ps.elements) []
      .ok (filter_snapshot_elements regexSearch all_elements object_type position tolerance,
        st2, reqs)
    match position with
    | some p =>
        match p.page_index with
        | some i =>
            match get_or_fetch_page_snapshot fetchPage st i with
            | .error e => .error e
            | .ok (snap, st2, reqs) =>
                .ok (filter_snapshot_elements regexSearch snap.elements object_type
                  position tolerance, st2, reqs)
        | none => docBranch
    | none => docBranch

/-- Outcome of one mutation call: the returned (or raised) value, the cache
state after the call, the network requests issued, and whether
invalidate_snapshots ran during the call. -/
structure MutOutcome (ρ : Type) where
  result : Except ValidationError ρ
  state : CacheState
  requests : List Request
  invalidated : Bool

/-- Translation of PDFDancer delete.  serverResult is the truthiness of
the parsed reply body; the cache is invalidated only when it is truthy. -/
def delete (object_ref : Option Element) (serverResult : Bool) (st : CacheState) :
    MutOutcome Bool :=
  match object_ref with
  | none => ⟨.error ⟨"Object reference cannot be null"⟩, st, [], false⟩
  | some _ =>
      if serverResult then
        ⟨.ok serverResult, invalidate_snapshots st, [Request.deleteObj], true⟩
      else
        ⟨.ok serverResult, st, [Request.deleteObj], false⟩

/-- Translation of PDFDancer delete_page. -/
def delete_page (page_ref : Option Element) (serverResult : Bool) (st : CacheState) :
    MutOutcome Bool :=
  match page_ref with
  | none => ⟨.error ⟨"Page reference cannot be null"⟩, st, [], false⟩
  | some _ =>
      if serverResult then
        ⟨.ok serverResult, invalidate_snapshots st, [Request.deletePage], true⟩
      else
        ⟨.ok serverResult, st, [Request.deletePage], false⟩

/-- Translation of PDFDancer move. -/
def move (object_ref : Option Element) (position : Option Position)
    (serverResult : Bool) (st : CacheState) : MutOutcome Bool :=
  match object_ref with
  | none => ⟨.error ⟨"Object reference cannot be null"⟩, st, [], false⟩
  | some _ =>
      match position with
      | none => ⟨.error ⟨"Position cannot be null"⟩, st, [], false⟩
      | some _ =>
          if serverResult then
            ⟨.ok serverResult, invalidate_snapshots st, [Request.moveObj], true⟩
          else
            ⟨.ok serverResult, st, [Request.moveObj], false⟩

/-- Translation of PDFDancer move_page: the validation loop rejects a null
or negative index (the from index first), then the request is submitted. -/
def move_page (from_page_index to_page_index : Option Int) (serverResult : Bool)
    (st : CacheState) : MutOutcome Bool :=
  match from_page_index with
  | none => ⟨.error ⟨"from_page_index cannot be null"⟩, st, [], false⟩
  | some f =>
      if f < 0 then ⟨.error ⟨"from_page_index must be >= 0"⟩, st, [], false⟩
      else
        match to_page_index with
        | none => ⟨.error ⟨"to_page_index cannot be null"⟩, st, [], false⟩
        | some t =>
            if t < 0 then ⟨.error ⟨"to_page_index must be >= 0"⟩, st, [], false⟩
            else if serverResult then
              ⟨.ok serverResult, invalidate_snapshots st, [Request.movePage], true⟩
            else
              ⟨.ok serverResult, st, [Request.movePage], false⟩

/-- Modelled from the spec: the outbound pdf object of an add call; the
core only needs its optional position. -/
structure PdfObjectModel where
  position : Option Position

/-- Translation of PDFDancer add_object (no validation of its own). -/
def add_object (pdf_object : PdfObjectModel) (serverResult : Bool) (st : CacheState) :
    MutOutcome Bool :=
  if serverResult then
    ⟨.ok serverResult, invalidate_snapshots st, [Request.addObj], true⟩
  else
    ⟨.ok serverResult, st, [Request.addObj], false⟩

/-- Translation of PDFDancer add_image: null checks, position override,
then add_object. -/
def add_image (image : Option PdfObjectModel) (position : Option Position)
    (serverResult : Bool) (st : CacheState) : MutOutcome Bool :=
  match image with
  | none => ⟨.error ⟨"Image cannot be null"⟩, st, [], false⟩
  | some img =>
      let img2 := match position with
        | some p => { img with position := some p }
        | none => img
      match img2.position with
      | none => ⟨.error ⟨"Image position is null"⟩, st, [], false⟩
      | some _ => add_object img2 serverResult st

/-- Translation of PDFDancer add_paragraph: null and page-index checks,
then add_object. -/
def add_paragraph (paragraph : Option PdfObjectModel) (serverResult : Bool)
    (st : CacheState) : MutOutcome Bool :=
  match paragraph with
  | none => ⟨.error ⟨"Paragraph cannot be null"⟩, st, [], false⟩
  | some par =>
      match par.position with
      | none => ⟨.error ⟨"Paragraph position is null"⟩, st, [], false⟩
      | some pos =>
          match pos.page_index with
          | none => ⟨.error ⟨"Paragraph position page index is null"⟩, st, [], false⟩
          | some i =>
              if i < 0 then
                ⟨.error ⟨"Paragraph position page index is less than 0"⟩, st, [], false⟩
              else add_object par serverResult st

/-- The second argument of modify_paragraph: a plain string (text-only
modification) or a structured paragraph object. -/
inductive NewParagraph where
  | textOnly (s : String)
  | structured (p : PdfObjectModel)

/-- Translation of PDFDancer modify_paragraph.  A null replacement returns
an empty CommandResult with no request; both real paths invalidate the
cache unconditionally after the request. -/
def modify_paragraph (object_ref : Option Element) (new_paragraph : Option NewParagraph)
    (serverResult : CommandResult) (st : CacheState) : MutOutcome CommandResult :=
  match object_ref with
  | none => ⟨.error ⟨"Object reference cannot be null"⟩, st, [], false⟩
  | some r =>
      match new_paragraph with
      | none => ⟨.ok (CommandResult.empty "ModifyParagraph" r.internal_id), st, [], false⟩
      | some (.textOnly _) =>
          ⟨.ok serverResult, invalidate_snapshots st, [Request.modifyText], true⟩
      | some (.structured _) =>
          ⟨.ok serverResult, invalidate_snapshots st, [Request.modifyObj], true⟩

/-- Translation of PDFDancer modify_text_line: null checks, then the
request, then an unconditional invalidation. -/
def modify_text_line (object_ref : Option Element) (new_text : Option String)
    (serverResult : CommandResult) (st : CacheState) : MutOutcome CommandResult :=
  match object_ref with
  | none => ⟨.error ⟨"Object reference cannot be null"⟩, st, [], false⟩
  | some _ =>
      match new_text with
      | none => ⟨.error ⟨"New text cannot be null"⟩, st, [], false⟩
      | some _ =>
          ⟨.ok serverResult, invalidate_snapshots st, [Request.modifyText], true⟩

/-- Translation of PDFDancer change_form_field: only the reference is
validated; the invalidation sits in a finally block, so it runs whatever
the parsed reply is. -/
def change_form_field (form_field_ref : Option Element) (new_value : Option String)
    (serverResult : Bool) (st : CacheState) : MutOutcome Bool :=
  match form_field_ref with
  | none => ⟨.error ⟨"Form field reference cannot be null"⟩, st, [], false⟩
  | some _ =>
      ⟨.ok serverResult, invalidate_snapshots st, [Request.changeFormField], true⟩

/-- A parsed JSON value, the argument type of the snapshot parsers. -/
inductive JValue where
  | null
  | bool (b : Bool)
  | num (q : ℚ)
  | str (s : String)
  | arr (elems : List JValue)
  | obj (fields : List (String × JValue))

/-- The python exception classes relevant to snapshot parsing.  The
element loop of parse_page_snapshot catches keyError and valueError only;
the others abort the whole parse.  Attribute errors raised by using a
non-dict as a dict are folded into typeError, and recursionError stands
for exceeding the interpreter recursion limit. -/
inductive PyErr where
  | keyError
  | valueError
  | typeError
  | recursionError
  deriving DecidableEq, Repr

/-- The errors swallowed (element dropped) by the element loop. -/
def PyErr.caught : PyErr → Bool
  | .keyError => true
  | .valueError => true
  | _ => false

/-- Dictionary lookup on a JSON object (dict.get, None when absent). -/
def jLookup (key : String) : List (String × JValue) → Option JValue
  | [] => none
  | (k, v) :: rest => if k = key then some v else jLookup key rest

/-- Dictionary assignment: replace the first binding of the key in place,
otherwise append. -/
def jSet (fields : List (String × JValue)) (key : String) (v : JValue) :
    List (String × JValue) :=
  match fields with
  | [] => [(key, v)]
  | (k, w) :: rest => if k = key then (k, v) :: rest else (k, w) :: jSet rest key v

/-- Python truthiness of a JSON value. -/
def jTruthy : JValue → Bool
  | .null => false
  | .bool b => b
  | .num q => decide (q ≠ 0)
  | .str s => !(s = "")
  | .arr xs => match xs with | [] => false | _ => true
  | .obj fs => match fs with | [] => false | _ => true

/-- Subscript access (dict[key]), raising keyError when absent. -/
def jGetItem (fields : List (String × JValue)) (key : String) : Except PyErr JValue :=
  match jLookup key fields with
  | none => .error .keyError
  | some v => .ok v

/-- Optional integer field (numeric JSON values are modelled as rationals;
a non-integral or non-numeric value is treated as absent). -/
def getOptInt (fields : List (String × JValue)) (key : String) : Option Int :=
  match jLookup key fields with
  | some (.num q) => if q.den = 1 then some q.num else none
  | _ => none

/-- Optional string field (non-string values treated as absent, matching
the isinstance guards of the source). -/
def getOptStr (fields : List (String × JValue)) (key : String) : Option String :=
  match jLookup key fields with
  | some (.str s) => some s
  | _ => none

/-- Optional numeric field. -/
def getOptNum (fields : List (String × JValue)) (key : String) : Option ℚ :=
  match jLookup key fields with
  | some (.num q) => some q
  | _ => none

/-- Boolean field with default. -/
def getBoolD (fields : List (String × JValue)) (key : String) (d : Bool) : Bool :=
  match jLookup key fields with
  | some (.bool b) => b
  | _ => d

/-- Lookup of an enum-like string field (shape, mode, fontType): an absent
key yields the default, a string is accepted, anything else fails the enum
constructor with a valueError.  Modelled from the spec: the member sets of
these enums live in the absent models.py, so every string is accepted. -/
def parseEnumStr (fields : List (String × JValue)) (key : String) (dflt : Option String) :
    Except PyErr (Option String) :=
  match jLookup key fields with
  | none => .ok dflt
  | some (.str s) => .ok (some s)
  | some _ => .error .valueError

/-- The boundingRect sub-parse inside parse_position: the four subscripts
are evaluated in order, so the first missing field raises keyError; with
all four present, non-numeric values cannot form a rect (typeError). -/
def parseBoundingRect (rfs : List (String × JValue)) : Except PyErr BoundingRect :=
  match jGetItem rfs "x" with
  | .error e => .error e
  | .ok xv =>
      match jGetItem rfs "y" with
      | .error e => .error e
      | .ok yv =>
          match jGetItem rfs "width" with
          | .error e => .error e
          | .ok wv =>
              match jGetItem rfs "height" with
              | .error e => .error e
              | .ok hv =>
                  match xv, yv, wv, hv with
                  | .num x, .num y, .num w, .num h => .ok ⟨x, y, w, h⟩
                  | _, _, _, _ => .error .typeError

/-- Translation of PDFDancer parse_position.  The source sets pageIndex,
textStartsWith, shape, mode and boundingRect, in that order; text_pattern
and name are never populated by this parser. -/
def parse_position (pos_data : List (String × JValue)) : Except PyErr Position :=
  let page_index := getOptInt pos_data "pageIndex"
  let text_starts_with := getOptStr pos_data "textStartsWith"
  match parseEnumStr pos_data "shape" none with
  | .error e => .error e
  | .ok shape =>
      match parseEnumStr pos_data "mode" none with
      | .error e => .error e
      | .ok mode =>
          let rectE : Except PyErr (Option BoundingRect) :=
            match jLookup "boundingRect" pos_data with
            | none => .ok none
            | some (.obj rfs) =>
                match parseBoundingRect rfs with
                | .error e => .error e
                | .ok r => .ok (some r)
            | some _ => .error .typeError
          match rectE with
          | .error e => .error e
          | .ok bounding_rect =>
              .ok { page_index := page_index, bounding_rect := bounding_rect,
                    text_starts_with := text_starts_with, shape := shape, mode := mode }

/-- The shared preamble of the ref parsers: obj_data.get(position, empty),
parsed when truthy, else None. -/
def parsePositionField (obj_data : List (String × JValue)) :
    Except PyErr (Option Position) :=
  let position_data := (jLookup "position" obj_data).getD (.obj [])
  if jTruthy position_data then
    match position_data with
    | .obj pfs =>
        match parse_position pfs with
        | .error e => .error e
        | .ok p => .ok (some p)
    | _ => .error .typeError
  else
    .ok none

/-- The mandatory type tag: ObjectType(obj_data[type]). -/
def parseTypeReq (obj_data : List (String × JValue)) : Except PyErr ObjectType :=
  match jLookup "type" obj_data with
  | none => .error .keyError
  | some (.str s) =>
      match ObjectType.ofString s with
      | some t => .ok t
      | none => .error .valueError
  | some _ => .error .valueError

/-- Translation of PDFDancer parse_object_ref. -/
def parse_object_ref (obj_data : List (String × JValue)) : Except PyErr Element :=
  match parsePositionField obj_data with
  | .error e => .error e
  | .ok position =>
      match parseTypeReq obj_data with
      | .error e => .error e
      | .ok object_type =>
          .ok (Element.mk .generic object_type (getOptStr obj_data "internalId") position
            none none none none none none none none [])

/-- Translation of PDFDancer parse_form_field_ref. -/
def parse_form_field_ref (obj_data : List (String × JValue)) : Except PyErr Element :=
  match parsePositionField obj_data with
  | .error e => .error e
  | .ok position =>
      match parseTypeReq obj_data with
      | .error e => .error e
      | .ok object_type =>
          .ok (Element.mk .formField object_type (getOptStr obj_data "internalId") position
            none none none none none none (getOptStr obj_data "name")
            (getOptStr obj_data "value") [])

/-- An all-absent Position, the python Position() default used by the
text parser when the position payload is falsy. -/
def emptyPosition : Position := {}

/-- The type tag of the text parser: ObjectType(obj_data.get(type, TEXT_LINE)). -/
def parseTypeDefaultTextLine (obj_data : List (String × JValue)) : Except PyErr ObjectType :=
  match jLookup "type" obj_data with
  | none => .ok .TEXT_LINE
  | some (.str s) =>
      match ObjectType.ofString s with
      | some t => .ok t
      | none => .error .valueError
  | some _ => .error .valueError

/-- The color sub-parse of the text parser: a color is built only when
red, green and blue are all integral; alpha defaults to 255. -/
def parseColorField (obj_data : List (String × JValue)) : Option Color :=
  match jLookup "color" obj_data with
  | some (.obj cfs) =>
      match getOptInt cfs "red", getOptInt cfs "green", getOptInt cfs "blue" with
      | some r, some g, some b => some ⟨r, g, b, (getOptInt cfs "alpha").getD 255⟩
      | _, _, _ => none
  | _ => none

/-- The status sub-parse of the text parser: the nested font
recommendation is built first, then the status record, with the defaults
of the source (similarityScore 0, fontType SYSTEM / UNKNOWN, modified
false, encodable true). -/
def parseStatusField (obj_data : List (String × JValue)) :
    Except PyErr (Option TextStatus) :=
  match jLookup "status" obj_data with
  | some (.obj sfs) => do
      let font_rec ←
        match jLookup "fontRecommendation" sfs with
        | some (.obj ffs) => do
            let ft ← parseEnumStr ffs "fontType" (some "SYSTEM")
            pure (some (⟨(getOptStr ffs "fontName").getD "", ft.getD "SYSTEM",
              (getOptNum ffs "similarityScore").getD 0⟩ : FontRecommendation))
        | _ => pure none
      let ft ← parseEnumStr sfs "fontType" (some "UNKNOWN")
      pure (some (⟨getBoolD sfs "modified" false, getBoolD sfs "encodable" true,
        ft.getD "UNKNOWN", font_rec⟩ : TextStatus))
  | _ => pure none

/-- The synthesized child identifier: parent id (or child when the parent
id is empty), a dash, and the child index. -/
def childFallbackId (parent_id : String) (idx : Nat) : String :=
  (if parent_id = "" then "child" else parent_id) ++ "-" ++ toString idx

/-- Translation of PDFDancer parse_text_object_ref.  The recursion over
the children array is bounded by a fuel argument standing for the python
recursion limit; running out of fuel is a recursionError, which no element
loop catches.  Any concrete payload is parsed exactly when the fuel
exceeds its nesting depth. -/
def parse_text_object_ref : Nat → List (String × JValue) → Option String →
    Except PyErr Element
  | 0, _, _ => .error .recursionError
  | Nat.succ fuel, obj_data, fallback_id =>
    let position_data := (jLookup "position" obj_data).getD (.obj [])
    let positionE : Except PyErr Position :=
      if jTruthy position_data then
        match position_data with
        | .obj pfs => parse_position pfs
        | _ => .error .typeError
      else
        .ok emptyPosition
    match positionE with
    | .error e => .error e
    | .ok position =>
      match parseTypeDefaultTextLine obj_data with
      | .error e => .error e
      | .ok object_type => do
      let line_spacings :=
        match jLookup "lineSpacings" obj_data with
        | some (.arr xs) =>
            some (xs.filterMap fun v => match v with | .num q => some q | _ => none)
        | _ => none
      let internal_id :=
        match jLookup "internalId" obj_data with
        | some (.str s) => s
        | _ => fallback_id.getD ""
      let color := parseColorField obj_data
      let status ← parseStatusField obj_data
      let children ←
        match jLookup "children" obj_data with
        | some (.arr xs) =>
            if xs.length > 0 then
              xs.enum.mapM fun ic =>
                match ic.2 with
                | .obj cfs =>
                    parse_text_object_ref fuel cfs (some (childFallbackId internal_id ic.1))
                | _ => (.error .typeError : Except PyErr Element)
            else pure []
        | _ => pure []
      pure (Element.mk .text object_type (some internal_id) (some position)
        (getOptStr obj_data "text") (getOptStr obj_data "fontName")
        (getOptNum obj_data "fontSize") line_spacings color status none none children)

/-- The pageSize sub-parse of parse_page_ref.  Modelled from the spec:
PageSize.from_dict lives in the absent models.py; it succeeds when width
and height are numeric and any failure is caught, leaving no page size. -/
def parsePageSizeField (obj_data : List (String × JValue)) : Option PageSize :=
  match jLookup "pageSize" obj_data with
  | some (.obj pfs) =>
      match getOptNum pfs "width", getOptNum pfs "height" with
      | some w, some h => some ⟨w, h⟩
      | _, _ => none
  | _ => none

/-- The orientation sub-parse of parse_page_ref: a string is stripped and
upper-cased, unrecognized values are discarded. -/
def parseOrientationField (obj_data : List (String × JValue)) : Option String :=
  match jLookup "orientation" obj_data with
  | some (.str s) =>
      let normalized := s.trim.toUpper
      if normalized = "PORTRAIT" ∨ normalized = "LANDSCAPE" then some normalized else none
  | _ => none

/-- Translation of PDFDancer parse_page_ref. -/
def parse_page_ref (obj_data : List (String × JValue)) : Except PyErr PageRef := do
  let position ← parsePositionField obj_data
  let object_type ← parseTypeReq obj_data
  pure ⟨getOptStr obj_data "internalId", position, object_type,
    parsePageSizeField obj_data, parseOrientationField obj_data⟩

/-- The body of the try block in the element loop of parse_page_snapshot:
normalize a CHECKBOX tag to CHECK_BOX (also inside the payload), look the
tag up in the enum, and dispatch to the parser of that type. -/
def parse_one_element (fuel : Nat) (elem_data : List (String × JValue)) :
    Except PyErr Element :=
  let elem_data :=
    if (match jLookup "type" elem_data with
        | some (.str s) => decide (s = "CHECKBOX")
        | _ => false) then
      jSet elem_data "type" (JValue.str "CHECK_BOX")
    else elem_data
  match jLookup "type" elem_data with
  | some (.str s) =>
      match ObjectType.ofString s with
      | none => .error .valueError
      | some t =>
          if t = .PARAGRAPH ∨ t = .TEXT_LINE then
            parse_text_object_ref fuel elem_data none
          else if t = .FORM_FIELD ∨ t = .TEXT_FIELD ∨ t = .CHECK_BOX ∨ t = .RADIO_BUTTON then
            parse_form_field_ref elem_data
          else
            parse_object_ref elem_data
  | some _ => .error .valueError
  | none => .error .valueError

/-- The element loop of parse_page_snapshot: a falsy type tag skips the
element silently; a keyError or valueError from the element parser drops
just that element; any other error aborts the parse. -/
def parse_elements (fuel : Nat) : List JValue → Except PyErr (List Element)
  | [] => .ok []
  | e :: rest =>
      match e with
      | .obj fs =>
          if jTruthy ((jLookup "type" fs).getD .null) then
            match parse_one_element fuel fs with
            | .ok el => do
                let els ← parse_elements fuel rest
                pure (el :: els)
            | .error err =>
                if err.caught then parse_elements fuel rest
                else .error err
          else
            parse_elements fuel rest
      | _ => .error .typeError

/-- Translation of PDFDancer parse_page_snapshot: the embedded page ref is
parsed outside any try block (its failure aborts the page parse), then the
element loop runs. -/
def parse_page_snapshot (fuel : Nat) (data : List (String × JValue)) :
    Except PyErr PageSnapshot := do
  let page_ref ←
    match (jLookup "pageRef" data).getD (.obj []) with
    | .obj fs => parse_page_ref fs
    | _ => (.error .typeError : Except PyErr PageRef)
  let elems_json ←
    match jLookup "elements" data with
    | none => pure []
    | some (.arr xs) => pure xs
    | some _ => (.error .typeError : Except PyErr (List JValue))
  let elements ← parse_elements fuel elems_json
  pure ⟨page_ref, elements⟩

/-- Translation of PDFDancer parse_font_recommendation. -/
def parse_font_recommendation (data : List (String × JValue)) :
    Except PyErr FontRecommendation := do
  let ft ← parseEnumStr data "fontType" (some "SYSTEM")
  pure ⟨(getOptStr data "fontName").getD "", ft.getD "SYSTEM",
    (getOptNum data "similarityScore").getD 0⟩

/-- Translation of PDFDancer parse_document_snapshot: font or page parse
failures are not caught here and abort the document parse. -/
def parse_document_snapshot (fuel : Nat) (data : List (String × JValue)) :
    Except PyErr DocumentSnapshot := do
  let page_count := (getOptInt data "pageCount").getD 0
  let fonts_json ←
    match jLookup "fonts" data with
    | none => pure []
    | some (.arr xs) => pure xs
    | some _ => (.error .typeError : Except PyErr (List JValue))
  let fonts ← fonts_json.mapM fun f =>
    match f with
    | .obj ffs => parse_font_recommendation ffs
    | _ => (.error .typeError : Except PyErr FontRecommendation)
  let pages_json ←
    match jLookup "pages" data with
    | none => pure []
    | some (.arr xs) => pure xs
    | some _ => (.error .typeError : Except PyErr (List JValue))
  let pages ← pages_json.mapM fun p =>
    match p with
    | .obj pfs => parse_page_snapshot fuel pfs
    | _ => (.error .typeError : Except PyErr PageSnapshot)
  pure ⟨page_count, fonts, pages⟩

/-- Modelled from the spec: the left edge of a rectangle expanded outward
by the tolerance. -/
def expandedLeft (r : BoundingRect) (tol : ℚ) : ℚ := r.x - tol

/-- Modelled from the spec: the expanded right edge. -/
def expandedRight (r : BoundingRect) (tol : ℚ) : ℚ := r.x + r.width + tol

/-- Modelled from the spec: the expanded top edge. -/
def expandedTop (r : BoundingRect) (tol : ℚ) : ℚ := r.y - tol

/-- Modelled from the spec: the expanded bottom edge. -/
def expandedBottom (r : BoundingRect) (tol : ℚ) : ℚ := r.y + r.height + tol

/-- The point query of the spec, x 10, y 10, width 0, height 0. -/
def pointQueryRect : BoundingRect := ⟨10, 10, 0, 0⟩

/-- The nearby element rectangle of the spec. -/
def elemRectNear : BoundingRect := ⟨10.005, 9.995, 5, 5⟩

/-- The distant element rectangle of the spec. -/
def elemRectFar : BoundingRect := ⟨50, 50, 5, 5⟩

/-- A snapshot element with only the fields relevant to the filters. -/
def mkSampleElement (k : RefKind) (t : ObjectType) (id : String) : Element :=
  Element.mk k t (some id) none none none none none none none none none []

def sampleTextField : Element := mkSampleElement .formField .TEXT_FIELD "TF1"

def sampleCheckBox : Element := mkSampleElement .formField .CHECK_BOX "CB1"

def sampleRadioButton : Element := mkSampleElement .formField .RADIO_BUTTON "RB1"

def sampleParagraphElem : Element := mkSampleElement .text .PARAGRAPH "P1"

/-- A concrete page snapshot used by the witnesses. -/
def wPageRef : PageRef := ⟨some "PAGE-0", none, .PAGE, none, none⟩

def wPage : PageSnapshot := ⟨wPageRef, [sampleParagraphElem]⟩

def wPageB : PageSnapshot := ⟨wPageRef, [sampleCheckBox]⟩

def wDoc : DocumentSnapshot := ⟨1, [], [wPage]⟩

def wFetchPage : Int → PageSnapshot := fun _ => wPageB

def wDoc2 : DocumentSnapshot := ⟨2, [], [wPageB, wPageB]⟩

/-- A populated cache state used by the mutation counterexamples. -/
def sampleMutState : CacheState := ⟨some wDoc, [(0, wPage)]⟩

/-- An element payload of type IMAGE whose boundingRect sub-object has
only x and y, missing width and height. -/
def c6BadElemJson : JValue :=
  .obj [("type", .str "IMAGE"), ("internalId", .str "IMG1"),
    ("position", .obj [("pageIndex", .num 0),
      ("boundingRect", .obj [("x", .num 1), ("y", .num 2)])])]

/-- A page-snapshot payload holding a valid page ref and only the element
with the partial boundingRect. -/
def c6PageJson : List (String × JValue) :=
  [("pageRef", .obj [("type", .str "PAGE")]), ("elements", .arr [c6BadElemJson])]

/-- The requests issued by a find call (none when the call raised). -/
def findRequests
    (o : Except ValidationError (List Element × CacheState × List Request)) :
    List Request :=
  match o with
  | .ok (_, _, reqs) => reqs
  | .error _ => []

/-
Theorems about the embedded client.
-/

/-- C9: the rectangle-overlap test expands both rectangles outward by the
tolerance on all four sides and then applies the standard axis-aligned
overlap test, and it treats zero-size query rectangles as point queries:
the point query at (10, 10) intersects the element rectangle at
(10.005, 9.995) of size 5 by 5 under tolerance 0.01, while it does not
intersect the element rectangle at (50, 50). -/
theorem rects_intersect_spec_and_point_queries :
    (∀ r1 r2 t, rects_intersect r1 r2 t = true ↔
      (expandedLeft r2 t ≤ expandedRight r1 t ∧ expandedLeft r1 t ≤ expandedRight r2 t ∧
        expandedTop r2 t ≤ expandedBottom r1 t ∧ expandedTop r1 t ≤ expandedBottom r2 t)) ∧
    rects_intersect elemRectNear pointQueryRect defaultTolerance = true ∧
    rects_intersect elemRectFar pointQueryRect defaultTolerance = false := by
  refine ⟨?_,
    by norm_num [rects_intersect, elemRectNear, pointQueryRect, defaultTolerance],
    by norm_num [rects_intersect, elemRectFar, pointQueryRect, defaultTolerance]⟩
  intro r1 r2 t
  unfold rects_intersect expandedLeft expandedRight expandedTop expandedBottom
  dsimp only
  constructor
  · intro h
    by_cases hA : r1.x + r1.width + t < r2.x - t ∨ r2.x + r2.width + t < r1.x - t
    · simp [hA] at h
    · by_cases hB : r1.y + r1.height + t < r2.y - t ∨ r2.y + r2.height + t < r1.y - t
      · simp [hA, hB] at h
      · push_neg at hA hB
        exact ⟨hA.1, hA.2, hB.1, hB.2⟩
  · rintro ⟨h1, h2, h3, h4⟩
    have hA : ¬(r1.x + r1.width + t < r2.x - t ∨ r2.x + r2.width + t < r1.x - t) := by
      push_neg
      exact ⟨h1, h2⟩
    have hB : ¬(r1.y + r1.height + t < r2.y - t ∨ r2.y + r2.height + t < r1.y - t) := by
      push_neg
      exact ⟨h3, h4⟩
    simp [hA, hB]

/-- C10: the rectangle-overlap test is symmetric in its two rectangles,
for every tolerance. -/
theorem rects_intersect_symm :
    ∀ r1 r2 t, rects_intersect r1 r2 t = rects_intersect r2 r1 t := by
  intro r1 r2 t
  unfold rects_intersect
  dsimp only
  by_cases h1 : r1.x + r1.width + t < r2.x - t <;>
    by_cases h2 : r2.x + r2.width + t < r1.x - t <;>
      by_cases h3 : r1.y + r1.height + t < r2.y - t <;>
        by_cases h4 : r2.y + r2.height + t < r1.y - t <;>
          simp [h1, h2, h3, h4]

/-- C8: with no positional predicate, the client-side type filter keeps
exactly the elements whose type tag equals the requested type, except that
a FORM_FIELD request also keeps TEXT_FIELD, CHECK_BOX and RADIO_BUTTON;
in particular, over one element of each of the types TEXT_FIELD,
CHECK_BOX, RADIO_BUTTON and PARAGRAPH, a FORM_FIELD query returns exactly
the three non-paragraph elements. -/
theorem filter_type_matching :
    (∀ (regexSearch : String → String → Bool) (els : List Element) (t : ObjectType) (tol : ℚ),
      filter_snapshot_elements regexSearch els (some t) none tol =
        els.filter fun e =>
          if t = ObjectType.FORM_FIELD then
            decide (e.type = ObjectType.FORM_FIELD ∨ e.type = ObjectType.TEXT_FIELD ∨
              e.type = ObjectType.CHECK_BOX ∨ e.type = ObjectType.RADIO_BUTTON)
          else
            decide (e.type = t)) ∧
    filter_snapshot_elements (fun _ _ => false)
        [sampleTextField, sampleCheckBox, sampleRadioButton, sampleParagraphElem]
        (some ObjectType.FORM_FIELD) none defaultTolerance =
      [sampleTextField, sampleCheckBox, sampleRadioButton] := by
  refine ⟨?_, by rfl⟩
  intro regexSearch els t tol
  by_cases h : t = ObjectType.FORM_FIELD
  · subst h
    simp [filter_snapshot_elements]
  · have hc : ¬(some t = some ObjectType.FORM_FIELD) := by simpa using h
    simp only [filter_snapshot_elements]
    rw [if_neg hc]
    refine List.filter_congr fun e _ => ?_
    rw [if_neg h, decide_eq_decide]
    exact ⟨fun hs => Option.some_inj.mp hs, fun hs => by rw [hs]⟩

theorem pmLookup_pmInsert (m : PageMap) (i j : Int) (q : PageSnapshot) :
    pmLookup (pmInsert m i q) j = if i = j then some q else pmLookup m j := by
  induction m with
  | nil =>
      by_cases hj : i = j <;> simp [pmInsert, pmLookup, hj]
  | cons kv rest ih =>
      obtain ⟨k, v⟩ := kv
      by_cases hk : k = i
      · subst hk
        by_cases hj : k = j <;> simp [pmInsert, pmLookup, hj]
      · by_cases hj : k = j
        · subst hj
          have hij : ¬(i = k) := fun hc => hk hc.symm
          simp [pmInsert, pmLookup, hk, hij]
        · simp [pmInsert, pmLookup, hk, hj, ih]

theorem cachePagesFromDoc_preserves (pages : List PageSnapshot) (m : PageMap) (i j : Int)
    (p : PageSnapshot) (h : pmLookup m j = some p) :
    pmLookup (cachePagesFromDoc m pages i) j = some p := by
  induction pages generalizing m i with
  | nil => exact h
  | cons q rest ih =>
      simp only [cachePagesFromDoc]
      by_cases hm : (pmLookup m i).isSome
      · rw [if_pos hm]
        exact ih m (i + 1) h
      · rw [if_neg hm]
        refine ih (pmInsert m i q) (i + 1) ?_
        rw [pmLookup_pmInsert]
        have hij : ¬(i = j) := by
          intro hc
          subst hc
          rw [h] at hm
          exact hm rfl
        rw [if_neg hij]
        exact h

/-- C3: the three-way policy of get_or_fetch_page_snapshot.  A cached page
slot is returned unchanged with no request; otherwise a cached document
snapshot whose page range covers the index supplies the page, which is
stored in the page map, still with no request; otherwise (for a
non-negative index, the domain of page indices) the dedicated
page-snapshot endpoint is hit and its result is stored and returned. -/
theorem get_or_fetch_page_policy (fetchPage : Int → PageSnapshot) (st : CacheState) (i : Int) :
    (∀ p, pmLookup st.page_snapshots i = some p →
      get_or_fetch_page_snapshot fetchPage st i = .ok (p, st, [])) ∧
    (∀ d (hl : pmLookup st.page_snapshots i = none)
        (hd : st.document_snapshot = some d)
        (hr : 0 ≤ i ∧ i.toNat < d.pages.length),
      get_or_fetch_page_snapshot fetchPage st i =
        .ok (d.pages.get ⟨i.toNat, hr.2⟩,
          ⟨st.document_snapshot,
            pmInsert st.page_snapshots i (d.pages.get ⟨i.toNat, hr.2⟩)⟩, [])) ∧
    (pmLookup st.page_snapshots i = none →
      (st.document_snapshot = none ∨
        ∃ d, st.document_snapshot = some d ∧ ¬(0 ≤ i ∧ i.toNat < d.pages.length)) →
      0 ≤ i →
      get_or_fetch_page_snapshot fetchPage st i =
        .ok (fetchPage i,
          ⟨st.document_snapshot, pmInsert st.page_snapshots i (fetchPage i)⟩,
          [Request.pageSnapshotGet i])) := by
  refine ⟨?_, ?_, ?_⟩
  · intro p hp
    simp [get_or_fetch_page_snapshot, hp]
  · intro d hl hd hr
    simp [get_or_fetch_page_snapshot, hl, hd, hr]
  · intro hl hmiss hge
    have hneg : ¬(i < 0) := not_lt.mpr hge
    rcases hmiss with hd | ⟨d, hd, hout⟩
    · simp [get_or_fetch_page_snapshot, hl, hd, get_page_snapshot, hneg]
    · simp [get_or_fetch_page_snapshot, hl, hd, hout, get_page_snapshot, hneg]

theorem get_or_fetch_page_policy_witness :
    get_or_fetch_page_snapshot wFetchPage ⟨none, [(0, wPage)]⟩ 0 =
      .ok (wPage, ⟨none, [(0, wPage)]⟩, []) ∧
    get_or_fetch_page_snapshot wFetchPage ⟨some wDoc, []⟩ 0 =
      .ok (wPage, ⟨some wDoc, [(0, wPage)]⟩, []) ∧
    get_or_fetch_page_snapshot wFetchPage emptyCache 0 =
      .ok (wPageB, ⟨none, [(0, wPageB)]⟩, [Request.pageSnapshotGet 0]) := by
  refine ⟨(get_or_fetch_page_policy wFetchPage ⟨none, [(0, wPage)]⟩ 0).1 wPage rfl, ?_, ?_⟩
  · have h := (get_or_fetch_page_policy wFetchPage ⟨some wDoc, []⟩ 0).2.1 wDoc rfl rfl
      ⟨by decide, by decide⟩
    exact h
  · have h := (get_or_fetch_page_policy wFetchPage emptyCache 0).2.2 rfl (Or.inl rfl)
      (by decide)
    exact h

/-- C5: when the document slot is empty, get_or_fetch_document_snapshot
fetches once, stores the document snapshot, and populates page slots
first-write-wins: every page index already cached before the call still
holds the very same page snapshot afterwards. -/
theorem get_or_fetch_document_first_write_wins (fetchDoc : DocumentSnapshot)
    (st : CacheState) (h : st.document_snapshot = none) :
    (get_or_fetch_document_snapshot fetchDoc st).2.1.document_snapshot = some fetchDoc ∧
    (get_or_fetch_document_snapshot fetchDoc st).2.2 = [Request.documentSnapshotGet] ∧
    ∀ j p, pmLookup st.page_snapshots j = some p →
      pmLookup (get_or_fetch_document_snapshot fetchDoc st).2.1.page_snapshots j = some p := by
  refine ⟨?_, ?_, ?_⟩
  · simp [get_or_fetch_document_snapshot, h]
  · simp [get_or_fetch_document_snapshot, h]
  · intro j p hp
    simp only [get_or_fetch_document_snapshot, h]
    exact cachePagesFromDoc_preserves fetchDoc.pages st.page_snapshots 0 j p hp

/-- C4: a find call for PATH objects with a bounding rectangle set on its
position is answered by the find-by-position endpoint alone: the POST find
request is the only request issued, the answer is the parsed network
result, and the cache is neither consulted nor modified. -/
theorem find_path_with_rect_bypasses_cache :
    ∀ (fetchDoc : DocumentSnapshot) (fetchPage : Int → PageSnapshot)
      (findResult : List Element) (regexSearch : String → String → Bool)
      (p : Position) (r : BoundingRect) (tol : ℚ) (st : CacheState),
      find fetchDoc fetchPage findResult regexSearch (some ObjectType.PATH)
          (some { p with bounding_rect := some r }) tol st =
        .ok (findResult, st, [Request.findPost]) := by
  intro fetchDoc fetchPage findResult regexSearch p r tol st
  simp [find]

theorem get_or_fetch_document_first_write_wins_witness :
    (get_or_fetch_document_snapshot wDoc2 ⟨none, [(0, wPage)]⟩).2.1.document_snapshot =
      some wDoc2 ∧
    pmLookup (get_or_fetch_document_snapshot wDoc2 ⟨none, [(0, wPage)]⟩).2.1.page_snapshots 0 =
      some wPage :=
  ⟨(get_or_fetch_document_first_write_wins wDoc2 ⟨none, [(0, wPage)]⟩ rfl).1,
    (get_or_fetch_document_first_write_wins wDoc2 ⟨none, [(0, wPage)]⟩ rfl).2.2 0 wPage rfl⟩

/-- C2: every mutation operation that reports success runs the cache
invalidation, which clears both levels (document slot absent, page map
empty), and a subsequent find call on the cleared cache, whatever its
arguments, issues a network request (the page-index shapes cover all
non-negative indices, the domain of page indices). -/
theorem successful_mutation_invalidates_and_next_find_fetches :
    ∀ (r : Element) (pos : Position) (m n : Nat) (img : PdfObjectModel)
      (arg : NewParagraph) (s v : String) (cr : CommandResult) (st : CacheState)
      (fetchDoc : DocumentSnapshot) (fetchPage : Int → PageSnapshot)
      (findResult : List Element) (regexSearch : String → String → Bool)
      (ot : Option ObjectType) (p : Position) (k : Nat) (tol : ℚ),
      ((delete (some r) true st).state = emptyCache ∧
        (delete (some r) true st).invalidated = true) ∧
      ((delete_page (some r) true st).state = emptyCache ∧
        (delete_page (some r) true st).invalidated = true) ∧
      ((move (some r) (some pos) true st).state = emptyCache ∧
        (move (some r) (some pos) true st).invalidated = true) ∧
      ((move_page (some ((m : Int))) (some ((n : Int))) true st).state = emptyCache ∧
        (move_page (some ((m : Int))) (some ((n : Int))) true st).invalidated = true) ∧
      ((add_object img true st).state = emptyCache ∧
        (add_object img true st).invalidated = true) ∧
      ((modify_paragraph (some r) (some arg) cr st).state = emptyCache ∧
        (modify_paragraph (some r) (some arg) cr st).invalidated = true) ∧
      ((modify_text_line (some r) (some s) cr st).state = emptyCache ∧
        (modify_text_line (some r) (some s) cr st).invalidated = true) ∧
      ((change_form_field (some r) (some v) true st).state = emptyCache ∧
        (change_form_field (some r) (some v) true st).invalidated = true) ∧
      findRequests (find fetchDoc fetchPage findResult regexSearch ot none tol
        emptyCache) ≠ [] ∧
      findRequests (find fetchDoc fetchPage findResult regexSearch ot
        (some { p with page_index := none }) tol emptyCache) ≠ [] ∧
      findRequests (find fetchDoc fetchPage findResult regexSearch ot
        (some { p with page_index := some ((k : Int)) }) tol emptyCache) ≠ [] := by
  intro r pos m n img arg s v cr st fetchDoc fetchPage findResult regexSearch ot p k tol
  have hmp : (move_page (some ((m : Int))) (some ((n : Int))) true st).state =
      emptyCache ∧
      (move_page (some ((m : Int))) (some ((n : Int))) true st).invalidated = true := by
    have hm : ¬(((m : Int)) < 0) := by omega
    have hn : ¬(((n : Int)) < 0) := by omega
    constructor <;> simp [move_page, hm, hn, invalidate_snapshots]
  have harg : (modify_paragraph (some r) (some arg) cr st).state = emptyCache ∧
      (modify_paragraph (some r) (some arg) cr st).invalidated = true := by
    cases arg <;> exact ⟨rfl, rfl⟩
  have hfind1 : findRequests (find fetchDoc fetchPage findResult regexSearch ot none tol
      emptyCache) ≠ [] := by
    simp [find, findRequests, get_or_fetch_document_snapshot, emptyCache]
  have hfind2 : findRequests (find fetchDoc fetchPage findResult regexSearch ot
      (some { p with page_index := none }) tol emptyCache) ≠ [] := by
    by_cases hb : (decide (ot = some ObjectType.PATH) && p.bounding_rect.isSome) = true
    · simp [find, hb, findRequests]
    · simp [find, hb, findRequests, get_or_fetch_document_snapshot, emptyCache]
  have hfind3 : findRequests (find fetchDoc fetchPage findResult regexSearch ot
      (some { p with page_index := some ((k : Int)) }) tol emptyCache) ≠ [] := by
    have hk : ¬(((k : Int)) < 0) := by omega
    by_cases hb : (decide (ot = some ObjectType.PATH) && p.bounding_rect.isSome) = true
    · simp [find, hb, findRequests]
    · simp [find, hb, findRequests, get_or_fetch_page_snapshot, get_page_snapshot,
        emptyCache, pmLookup, hk]
  exact ⟨⟨rfl, rfl⟩, ⟨rfl, rfl⟩, ⟨rfl, rfl⟩, hmp, ⟨rfl, rfl⟩, harg, ⟨rfl, rfl⟩,
    ⟨rfl, rfl⟩, hfind1, hfind2, hfind3⟩

/-- C1 counterexample: change_form_field invalidates in a finally block,
so even a falsy server reply (the call returns false) clears a populated
document-snapshot slot; the claim that every unsuccessful mutation leaves
the cache untouched and never invalidates is false at this input. -/
theorem change_form_field_falsy_still_invalidates :
    (change_form_field (some sampleParagraphElem) (some "x") false sampleMutState).result =
      .ok false ∧
    (change_form_field (some sampleParagraphElem) (some "x") false
      sampleMutState).invalidated = true ∧
    (change_form_field (some sampleParagraphElem) (some "x") false
      sampleMutState).state.document_snapshot = none ∧
    sampleMutState.document_snapshot = some wDoc :=
  ⟨rfl, rfl, rfl, rfl⟩

/-- C1 amended: for delete object, delete page, move object, move page and
add object, a falsy server reply leaves the cache state untouched (the
very same state value) and invalidate is not called; modify paragraph,
modify text line and change form-field instead invalidate unconditionally,
clearing the cache even on a falsy or void reply. -/
theorem falsy_mutation_cache_effects :
    ∀ (r : Element) (posO : Option Position) (iO jO : Option Int)
      (img : PdfObjectModel) (arg : NewParagraph) (s v : String)
      (cr : CommandResult) (st : CacheState),
      ((delete (some r) false st).state = st ∧
        (delete (some r) false st).invalidated = false) ∧
      ((delete_page (some r) false st).state = st ∧
        (delete_page (some r) false st).invalidated = false) ∧
      ((move (some r) posO false st).state = st ∧
        (move (some r) posO false st).invalidated = false) ∧
      ((move_page iO jO false st).state = st ∧
        (move_page iO jO false st).invalidated = false) ∧
      ((add_object img false st).state = st ∧
        (add_object img false st).invalidated = false) ∧
      ((modify_paragraph (some r) (some arg) cr st).invalidated = true ∧
        (modify_paragraph (some r) (some arg) cr st).state = emptyCache) ∧
      ((modify_text_line (some r) (some s) cr st).invalidated = true ∧
        (modify_text_line (some r) (some s) cr st).state = emptyCache) ∧
      ((change_form_field (some r) (some v) false st).invalidated = true ∧
        (change_form_field (some r) (some v) false st).state = emptyCache) := by
  intro r posO iO jO img arg s v cr st
  have hmv : (move (some r) posO false st).state = st ∧
      (move (some r) posO false st).invalidated = false := by
    cases posO <;> exact ⟨rfl, rfl⟩
  have hmp : (move_page iO jO false st).state = st ∧
      (move_page iO jO false st).invalidated = false := by
    cases iO with
    | none => exact ⟨rfl, rfl⟩
    | some a =>
        cases jO with
        | none =>
            by_cases ha : a < 0 <;> constructor <;> simp [move_page, ha]
        | some b =>
            by_cases ha : a < 0 <;> by_cases hb : b < 0 <;> constructor <;>
              simp [move_page, ha, hb]
  have harg : (modify_paragraph (some r) (some arg) cr st).invalidated = true ∧
      (modify_paragraph (some r) (some arg) cr st).state = emptyCache := by
    cases arg <;> exact ⟨rfl, rfl⟩
  exact ⟨⟨rfl, rfl⟩, ⟨rfl, rfl⟩, hmv, hmp, ⟨rfl, rfl⟩, harg, ⟨rfl, rfl⟩, ⟨rfl, rfl⟩⟩

/-- C7 counterexample: modify_paragraph called with a null replacement
content does not raise a validation failure: it returns an empty command
result (still with no request and no cache change), refuting the claim
that every mutation raises on a null argument. -/
theorem modify_paragraph_null_content_no_raise :
    (modify_paragraph (some sampleParagraphElem) none ⟨"cmd", none⟩ sampleMutState).result =
      .ok (CommandResult.empty "ModifyParagraph" (some "P1")) ∧
    (modify_paragraph (some sampleParagraphElem) none ⟨"cmd", none⟩
      sampleMutState).requests = [] ∧
    (modify_paragraph (some sampleParagraphElem) none ⟨"cmd", none⟩
      sampleMutState).state = sampleMutState :=
  ⟨rfl, rfl, rfl⟩

/-- C7 amended: each mutation operation rejects a null object or page
reference, a null position, a null page index and a null new text with a
validation failure raised before any request and without touching the
cache; the two exceptions are modify_paragraph, which answers a null
replacement content with an empty command result (still no request, no
cache change), and change_form_field, which does not validate a null new
value and issues the request anyway. -/
theorem null_argument_validation :
    ∀ (st : CacheState) (r : Element) (posO : Option Position)
      (npO : Option NewParagraph) (ntO vO : Option String) (jO : Option Int)
      (sr : Bool) (cr : CommandResult) (m : Nat),
      delete none sr st =
        ⟨.error ⟨"Object reference cannot be null"⟩, st, [], false⟩ ∧
      delete_page none sr st =
        ⟨.error ⟨"Page reference cannot be null"⟩, st, [], false⟩ ∧
      move none posO sr st =
        ⟨.error ⟨"Object reference cannot be null"⟩, st, [], false⟩ ∧
      move (some r) none sr st =
        ⟨.error ⟨"Position cannot be null"⟩, st, [], false⟩ ∧
      move_page none jO sr st =
        ⟨.error ⟨"from_page_index cannot be null"⟩, st, [], false⟩ ∧
      move_page (some ((m : Int))) none sr st =
        ⟨.error ⟨"to_page_index cannot be null"⟩, st, [], false⟩ ∧
      add_image none posO sr st =
        ⟨.error ⟨"Image cannot be null"⟩, st, [], false⟩ ∧
      add_image (some ⟨none⟩) none sr st =
        ⟨.error ⟨"Image position is null"⟩, st, [], false⟩ ∧
      add_paragraph none sr st =
        ⟨.error ⟨"Paragraph cannot be null"⟩, st, [], false⟩ ∧
      modify_paragraph none npO cr st =
        ⟨.error ⟨"Object reference cannot be null"⟩, st, [], false⟩ ∧
      modify_text_line none ntO cr st =
        ⟨.error ⟨"Object reference cannot be null"⟩, st, [], false⟩ ∧
      modify_text_line (some r) none cr st =
        ⟨.error ⟨"New text cannot be null"⟩, st, [], false⟩ ∧
      change_form_field none vO sr st =
        ⟨.error ⟨"Form field reference cannot be null"⟩, st, [], false⟩ ∧
      modify_paragraph (some r) none cr st =
        ⟨.ok (CommandResult.empty "ModifyParagraph" r.internal_id), st, [], false⟩ ∧
      change_form_field (some r) none sr st =
        ⟨.ok sr, emptyCache, [Request.changeFormField], true⟩ := by
  intro st r posO npO ntO vO jO sr cr m
  have hmp : move_page (some ((m : Int))) none sr st =
      ⟨.error ⟨"to_page_index cannot be null"⟩, st, [], false⟩ := by
    have hm : ¬(((m : Int)) < 0) := by omega
    simp [move_page, hm]
  exact ⟨rfl, rfl, rfl, rfl, rfl, hmp, rfl, rfl, rfl, rfl, rfl, rfl, rfl, rfl, rfl⟩

theorem jLookup_jSet_self (fs : List (String × JValue)) (k : String) (v : JValue) :
    jLookup k (jSet fs k v) = some v := by
  induction fs with
  | nil => simp [jSet, jLookup]
  | cons kv rest ih =>
      obtain ⟨k1, v1⟩ := kv
      by_cases h : k1 = k
      · subst h
        simp [jSet, jLookup]
      · simp [jSet, jLookup, h, ih]

theorem jLookup_jSet_ne (fs : List (String × JValue)) (k k2 : String) (v : JValue)
    (h : k2 ≠ k) : jLookup k2 (jSet fs k v) = jLookup k2 fs := by
  induction fs with
  | nil => simp [jSet, jLookup, Ne.symm h]
  | cons kv rest ih =>
      obtain ⟨k1, v1⟩ := kv
      by_cases h1 : k1 = k
      · subst h1
        simp [jSet, jLookup, Ne.symm h]
      · by_cases h2 : k1 = k2 <;> simp [jSet, jLookup, h, h1, h2, ih]

theorem parseEnumStr_error_caught (fs : List (String × JValue)) (k : String)
    (d : Option String) (e : PyErr) (h : parseEnumStr fs k d = .error e) :
    e.caught = true := by
  unfold parseEnumStr at h
  cases hj : jLookup k fs with
  | none =>
      rw [hj] at h
      exact absurd h (by simp)
  | some v =>
      rw [hj] at h
      cases v <;> simp at h <;> (subst h; rfl)

theorem parseBoundingRect_missing_field (rfs : List (String × JValue))
    (hmiss : jLookup "x" rfs = none ∨ jLookup "y" rfs = none ∨
      jLookup "width" rfs = none ∨ jLookup "height" rfs = none) :
    parseBoundingRect rfs = .error .keyError := by
  unfold parseBoundingRect jGetItem
  cases hx : jLookup "x" rfs with
  | none => simp [hx]
  | some xv =>
      cases hy : jLookup "y" rfs with
      | none => simp [hx, hy]
      | some yv =>
          cases hw : jLookup "width" rfs with
          | none => simp [hx, hy, hw]
          | some wv =>
              cases hh : jLookup "height" rfs with
              | none => simp [hx, hy, hw, hh]
              | some hv =>
                  exfalso
                  rcases hmiss with h | h | h | h <;> simp_all

theorem parse_position_rect_missing (pos_fields rfs : List (String × JValue))
    (hbr : jLookup "boundingRect" pos_fields = some (.obj rfs))
    (hmiss : jLookup "x" rfs = none ∨ jLookup "y" rfs = none ∨
      jLookup "width" rfs = none ∨ jLookup "height" rfs = none) :
    ∃ e, parse_position pos_fields = .error e ∧ e.caught = true := by
  have hrect := parseBoundingRect_missing_field rfs hmiss
  cases hsarg : parseEnumStr pos_fields "shape" none with
  | error e =>
      exact ⟨e, by simp [parse_position, hsarg],
        parseEnumStr_error_caught _ _ _ _ hsarg⟩
  | ok shp =>
      cases hmarg : parseEnumStr pos_fields "mode" none with
      | error e =>
          exact ⟨e, by simp [parse_position, hsarg, hmarg],
            parseEnumStr_error_caught _ _ _ _ hmarg⟩
      | ok md =>
          exact ⟨.keyError, by simp [parse_position, hsarg, hmarg, hbr, hrect], rfl⟩

theorem parsePositionField_error (obj_data pos_fields : List (String × JValue))
    (e : PyErr) (hpos : jLookup "position" obj_data = some (.obj pos_fields))
    (hne : pos_fields ≠ []) (herr : parse_position pos_fields = .error e) :
    parsePositionField obj_data = .error e := by
  have htr : jTruthy (.obj pos_fields) = true := by
    cases pos_fields with
    | nil => exact absurd rfl hne
    | cons a l => rfl
  simp [parsePositionField, hpos, htr, herr]

theorem parse_object_ref_pos_error (obj_data pos_fields : List (String × JValue))
    (e : PyErr) (hpos : jLookup "position" obj_data = some (.obj pos_fields))
    (hne : pos_fields ≠ []) (herr : parse_position pos_fields = .error e) :
    parse_object_ref obj_data = .error e := by
  unfold parse_object_ref
  rw [parsePositionField_error obj_data pos_fields e hpos hne herr]

theorem parse_form_field_ref_pos_error (obj_data pos_fields : List (String × JValue))
    (e : PyErr) (hpos : jLookup "position" obj_data = some (.obj pos_fields))
    (hne : pos_fields ≠ []) (herr : parse_position pos_fields = .error e) :
    parse_form_field_ref obj_data = .error e := by
  unfold parse_form_field_ref
  rw [parsePositionField_error obj_data pos_fields e hpos hne herr]

theorem parse_text_object_ref_pos_error (fuel : Nat)
    (obj_data pos_fields : List (String × JValue)) (e : PyErr) (fb : Option String)
    (hpos : jLookup "position" obj_data = some (.obj pos_fields))
    (hne : pos_fields ≠ []) (herr : parse_position pos_fields = .error e) :
    parse_text_object_ref (fuel + 1) obj_data fb = .error e := by
  have htr : jTruthy (.obj pos_fields) = true := by
    cases pos_fields with
    | nil => exact absurd rfl hne
    | cons a l => rfl
  simp [parse_text_object_ref, hpos, htr, herr]

theorem parse_one_element_bad_rect (fuel : Nat) (fs : List (String × JValue))
    (s : String) (t : ObjectType) (pos_fields rfs : List (String × JValue))
    (hty : jLookup "type" fs = some (.str s))
    (ht : ObjectType.ofString (if s = "CHECKBOX" then "CHECK_BOX" else s) = some t)
    (hpos : jLookup "position" fs = some (.obj pos_fields))
    (hne : pos_fields ≠ [])
    (hbr : jLookup "boundingRect" pos_fields = some (.obj rfs))
    (hmiss : jLookup "x" rfs = none ∨ jLookup "y" rfs = none ∨
      jLookup "width" rfs = none ∨ jLookup "height" rfs = none) :
    ∃ e, parse_one_element (fuel + 1) fs = .error e ∧ e.caught = true := by
  obtain ⟨e0, hpp, hc0⟩ := parse_position_rect_missing pos_fields rfs hbr hmiss
  by_cases hcb : s = "CHECKBOX"
  · subst hcb
    have hset_ty : jLookup "type" (jSet fs "type" (JValue.str "CHECK_BOX")) =
        some (.str "CHECK_BOX") := jLookup_jSet_self fs "type" _
    have hset_pos : jLookup "position" (jSet fs "type" (JValue.str "CHECK_BOX")) =
        some (.obj pos_fields) := by
      rw [jLookup_jSet_ne fs "type" "position" _ (by decide)]
      exact hpos
    refine ⟨e0, ?_, hc0⟩
    have hform := parse_form_field_ref_pos_error _ pos_fields e0 hset_pos hne hpp
    simp [parse_one_element, hty, hset_ty, ObjectType.ofString, hform]
  · have ht' : ObjectType.ofString s = some t := by rwa [if_neg hcb] at ht
    refine ⟨e0, ?_, hc0⟩
    have hobj := parse_object_ref_pos_error fs pos_fields e0 hpos hne hpp
    have hform := parse_form_field_ref_pos_error fs pos_fields e0 hpos hne hpp
    have htext := parse_text_object_ref_pos_error fuel fs pos_fields e0 none hpos hne hpp
    cases t <;> simp [parse_one_element, hty, hcb, ht', hobj, hform, htext]

/-- C6 amended: during page-snapshot parsing, an element whose JSON
carries a boundingRect sub-object missing at least one of the four
numeric fields is dropped from the parsed element list, exactly like a
fatally malformed element; it is not retained with an absent bounding
rectangle.  The hypotheses say the element has a recognized type tag, a
truthy position object and a boundingRect object missing a field; the
conclusion says the element loop yields the same elements as without the
element. -/
theorem element_with_partial_rect_dropped (fuel : Nat)
    (fs : List (String × JValue)) (rest : List JValue)
    (s : String) (t : ObjectType) (pos_fields rfs : List (String × JValue))
    (hty : jLookup "type" fs = some (.str s))
    (ht : ObjectType.ofString (if s = "CHECKBOX" then "CHECK_BOX" else s) = some t)
    (hpos : jLookup "position" fs = some (.obj pos_fields))
    (hne : pos_fields ≠ [])
    (hbr : jLookup "boundingRect" pos_fields = some (.obj rfs))
    (hmiss : jLookup "x" rfs = none ∨ jLookup "y" rfs = none ∨
      jLookup "width" rfs = none ∨ jLookup "height" rfs = none) :
    parse_elements (fuel + 1) (.obj fs :: rest) = parse_elements (fuel + 1) rest := by
  have hs : s ≠ "" := by
    intro h
    subst h
    by_cases hc : ("" : String) = "CHECKBOX"
    · exact absurd hc (by decide)
    · rw [if_neg hc] at ht
      exact absurd ht (by simp [ObjectType.ofString])
  obtain ⟨e, he, hc⟩ :=
    parse_one_element_bad_rect fuel fs s t pos_fields rfs hty ht hpos hne hbr hmiss
  simp [parse_elements, hty, jTruthy, hs, he, hc]

/-- C6 counterexample: a page snapshot whose single element (type IMAGE)
carries a boundingRect with only x and y parses successfully, but the
parsed page has an empty element list: the element was dropped, not
retained with an absent bounding rectangle. -/
theorem page_parse_drops_element_with_partial_rect :
    parse_page_snapshot 1 c6PageJson =
      .ok ⟨⟨none, none, ObjectType.PAGE, none, none⟩, []⟩ := rfl

theorem element_with_partial_rect_dropped_witness :
    parse_elements 1 [c6BadElemJson] = parse_elements 1 [] := by
  have h := element_with_partial_rect_dropped 0
    [("type", .str "IMAGE"), ("internalId", .str "IMG1"),
      ("position", .obj [("pageIndex", .num 0),
        ("boundingRect", .obj [("x", .num 1), ("y", .num 2)])])]
    [] "IMAGE" ObjectType.IMAGE
    [("pageIndex", .num 0), ("boundingRect", .obj [("x", .num 1), ("y", .num 2)])]
    [("x", .num 1), ("y", .num 2)]
    rfl rfl rfl (by simp) rfl
    (Or.inr (Or.inr (Or.inl rfl)))
  exact h

end PdfDancer
